import Mathlib

set_option autoImplicit false

/-!
Verification of the rust-tunnle reverse-tunnel gateway and agent against its
specification.  The gateway (src/src/main.rs) and the agent
(src/agent/src/main.rs) are shallowly embedded: pure helpers become Lean
functions, the shared connection registry becomes an association list that the
handlers transform explicitly, and the external collaborators the spec declares
out of scope (the serde JSON codec, the HTTP client, the clock) are passed in
as parameters or scripted inputs.
-/

namespace RustTunnel

/-! ## JSON values (model of serde_json::Value) -/

/-- A JSON value, the model of serde_json::Value.  Numbers appear in the
program only as HTTP status codes, so an integer representation suffices. -/
inductive Json where
  | null
  | bool (b : Bool)
  | num (n : Int)
  | str (s : String)
  | arr (xs : List Json)
  | obj (kvs : List (String × Json))

/-- Model of serde_json::Value::get on a key: field lookup on an object,
none on every other value. -/
def Json.get : Json → String → Option Json
  | .obj kvs, k => (kvs.find? (fun kv => kv.1 == k)).map Prod.snd
  | _, _ => none

/-- Model of serde_json::Value::as_str. -/
def Json.asStr : Json → Option String
  | .str s => some s
  | _ => none

/-! ## Tunnel-id validation (gateway, validate_tunnel_id, src/src/main.rs:74-92) -/

/-- Model of Rust str::split on a single separator character: every occurrence
of the separator splits, adjacent separators and separators at either end
produce empty fields, and the empty string yields one empty field. -/
def splitOnChar (sep : Char) : List Char → List (List Char)
  | [] => [[]]
  | c :: rest =>
    match splitOnChar sep rest with
    | [] => [[]]
    | w :: ws => if c = sep then [] :: w :: ws else (c :: w) :: ws

/-- Joining with a separator, the left inverse of splitOnChar. -/
def joinSep (sep : Char) : List (List Char) → List Char
  | [] => []
  | [w] => w
  | w :: v :: ws => w ++ sep :: joinSep sep (v :: ws)

/-- ASCII hexadecimal digit test. -/
def isHexChar (c : Char) : Bool :=
  c.isDigit || (97 ≤ c.toNat && c.toNat ≤ 102) || (65 ≤ c.toNat && c.toNat ≤ 70)

/-- Modelled from the spec: uuid::Uuid::parse_str belongs to the external uuid
crate, which is not under src (no Cargo manifest is present); spec section 3
requires the middle field of a tunnel id to parse as a canonical UUID, i.e.
the hyphenated form of five hexadecimal groups of lengths 8-4-4-4-12. -/
def parse_uuid_ok (u : List Char) : Bool :=
  match splitOnChar '-' u with
  | [a, b, c, d, e] =>
    a.length == 8 && b.length == 4 && c.length == 4 && d.length == 4 &&
    e.length == 12 && (a ++ b ++ c ++ d ++ e).all isHexChar
  | _ => false

/-- The gateway's tunnel-id check (src/src/main.rs:74-92): split on the
underscore, demand exactly three fields, the first literally agent, the
second a UUID, and every character of the third alphanumeric or an
underscore.  Rust's char::is_alphanumeric consults the full Unicode tables,
an external collaborator, so the alphanumeric test is a parameter. -/
def validate_tunnel_id (alnum : Char → Bool) (tunnel_id : List Char) : Bool :=
  match splitOnChar '_' tunnel_id with
  | [p0, p1, p2] =>
    p0 == "agent".data && parse_uuid_ok p1 && p2.all (fun c => alnum c || c == '_')
  | _ => false

/-- ASCII instance of the alphanumeric test, agreeing with Rust's
char::is_alphanumeric on all ASCII inputs used in the concrete examples. -/
def asciiAlnum (c : Char) : Bool := c.isAlpha || c.isDigit

/-! ## Gateway data model (src/src/main.rs:19-71) -/

/-- The payload document of a forwarded request frame (struct ForwardedRequest,
src/src/main.rs:46-52). -/
structure ForwardedRequest where
  method : String
  path : String
  body : String
  headers : List (String × String)
deriving DecidableEq

/-- An outbound frame enqueued on a channel's send queue.  On the wire the
frame is the serde serialization of WebSocketMessage whose payload is the
serialized ForwardedRequest; serialization is the external codec, so the frame
is modelled by the documents themselves. -/
structure OutFrame where
  message_type : String
  request : ForwardedRequest
deriving DecidableEq

/-- The forwarder's single-slot delivery channel (tokio mpsc::channel(1)).
The forwarder owns the receiving end; receiver_live records whether that end
still exists (it is dropped when the forwarder's timeout fires), and a send on
a channel whose receiver was dropped fails. -/
structure Sink where
  id : Nat
  receiver_live : Bool
deriving DecidableEq

/-- Per-channel registry record (struct ConnectionDetails,
src/src/main.rs:61-66).  The tokio sender is modelled by the queue of frames
enqueued on it; response_handler holds the installed pending sink. -/
structure ConnectionDetails where
  connected_at : Nat
  tunnel_id : Option (List Char)
  send_queue : List OutFrame
  response_handler : Option Sink
deriving DecidableEq

/-- The shared connection registry (AppState.connections), a HashMap from the
connection id to its details, modelled as an association list; the unspecified
HashMap iteration order becomes the list order. -/
abbrev Registry := List (String × ConnectionDetails)

/-- HashMap::get / get_mut lookup. -/
def Registry.lookup : Registry → String → Option ConnectionDetails
  | [], _ => none
  | (k, v) :: rest, cid => if k = cid then some v else Registry.lookup rest cid

/-- In-place mutation of the entry with the given key, as through get_mut. -/
def Registry.update : Registry → String → ConnectionDetails → Registry
  | [], _, _ => []
  | (k, v) :: rest, cid, d =>
    if k = cid then (k, d) :: rest else (k, v) :: Registry.update rest cid d

/-- HashMap::remove (src/src/main.rs:349). -/
def Registry.removeConn : Registry → String → Registry
  | [], _ => []
  | (k, v) :: rest, cid =>
    if k = cid then rest else (k, v) :: Registry.removeConn rest cid

/-! ## Gateway forwarders (src/src/main.rs:361-441 and 451-549) -/

/-- The agent-selection-and-arm step both forwarders share
(src/src/main.rs:369-398 and 462-493): under the registry write lock,
iter_mut().find selects the first entry whose tunnel_id is present, sets its
response_handler to the new sink, and enqueues the outbound frame on its
sender; none when no entry qualifies.  The find predicate inspects only
tunnel_id, and the install is an unconditional assignment. -/
def pick_and_arm (sink : Sink) (msg : OutFrame) : Registry → Option (String × Registry)
  | [] => none
  | (cid, d) :: rest =>
    if d.tunnel_id.isSome then
      some (cid,
        (cid, { d with response_handler := some sink,
                       send_queue := d.send_queue ++ [msg] }) :: rest)
    else
      match pick_and_arm sink msg rest with
      | none => none
      | some (c, rest') => some (c, (cid, d) :: rest')

/-- The frame POST /forward enqueues (src/src/main.rs:374-381). -/
def postForwardFrame (body : String) : OutFrame :=
  { message_type := "request",
    request := { method := "POST", path := "/", body := body,
                 headers := [("content-type", "application/json")] } }

/-- The frame the GET catch-all enqueues (src/src/main.rs:467-478). -/
def directForwardFrame (path : String) : OutFrame :=
  { message_type := "request",
    request := { method := "GET", path := path, body := "",
                 headers := [("accept", "text/html,application/xhtml+xml"),
                             ("user-agent", "Mozilla/5.0")] } }

/-- Timeout of the POST /forward wait, seconds (src/src/main.rs:404). -/
def FORWARD_TIMEOUT_SECS : Nat := 5

/-- Timeout of the GET catch-all wait, seconds (src/src/main.rs:499). -/
def DIRECT_TIMEOUT_SECS : Nat := 30

/-- Outcome of the timed wait on the sink: a delivered value (Ok Some), the
channel closed with the sender dropped (Ok None), or the timer elapsed. -/
inductive WaitOutcome where
  | received (v : Json)
  | closed
  | timedOut

/-- The JSON envelope POST /forward renders (struct ApiResponse). -/
structure ApiResponse where
  status : String
  message : String
  data : Option Json

/-- A rendered HTTP response of the catch-all handler. -/
structure HttpResponse where
  status : Nat
  headers : List (String × String)
  body : String

/-- Rendering of the POST /forward wait outcome (src/src/main.rs:404-430). -/
def render_forward : WaitOutcome → ApiResponse
  | .received v =>
    { status := "success", message := "Request processed by agent", data := some v }
  | .closed =>
    { status := "error", message := "Agent connection lost", data := none }
  | .timedOut =>
    { status := "error", message := "Timeout waiting for agent response", data := none }

/-- Rendering of the GET catch-all wait outcome (src/src/main.rs:499-537):
a delivered value whose data.body is a string becomes 200 text/html with that
string; a delivered value of any other shape becomes 500 Invalid response
format; a closed sink becomes 502; an elapsed timer becomes 504. -/
def render_direct : WaitOutcome → HttpResponse
  | .received v =>
    match v.get "data" with
    | some d =>
      match d.get "body" with
      | some b =>
        match b.asStr with
        | some s =>
          { status := 200,
            headers := [("Content-Type", "text/html"), ("Connection", "close")],
            body := s }
        | none =>
          { status := 500, headers := [("Connection", "close")],
            body := "Invalid response format" }
      | none =>
        { status := 500, headers := [("Connection", "close")],
          body := "Invalid response format" }
    | none =>
      { status := 500, headers := [("Connection", "close")],
        body := "Invalid response format" }
  | .closed =>
    { status := 502, headers := [("Connection", "close")],
      body := "Agent connection lost" }
  | .timedOut =>
    { status := 504, headers := [("Connection", "close")],
      body := "Request timed out after 30 seconds" }

/-- POST /forward (handle_forward_request, src/src/main.rs:361-441): arm an
agent under the write lock, then render the wait outcome.  The outcome of the
timed wait is a scripted input; the send on the unbounded channel succeeds
while the channel's send task lives, the case modelled here. -/
def handle_forward_request (reg : Registry) (sink : Sink) (body : String)
    (outcome : WaitOutcome) : Registry × ApiResponse :=
  match pick_and_arm sink (postForwardFrame body) reg with
  | none => (reg, { status := "error", message := "No agents available", data := none })
  | some (_, reg') => (reg', render_forward outcome)

/-- GET catch-all (handle_direct_request, src/src/main.rs:451-549), same shape
as the POST forwarder with the GET frame and HTTP rendering; with no eligible
agent it replies 503 No agents available. -/
def handle_direct_request (reg : Registry) (sink : Sink) (path : String)
    (outcome : WaitOutcome) : Registry × HttpResponse :=
  match pick_and_arm sink (directForwardFrame path) reg with
  | none => (reg, { status := 503, headers := [], body := "No agents available" })
  | some (_, reg') => (reg', render_direct outcome)

/-! ## Gateway receive loop (handle_socket, src/src/main.rs:280-351) -/

/-- The agent handshake document (struct AgentHandshake, src/src/main.rs:54-58;
identical on the agent side). -/
structure AgentHandshake where
  tunnel_id : List Char
  agent_version : String

/-- The receive loop's view of one inbound text frame: the outcome of the two
serde parse attempts the loop performs in order (AgentHandshake first, then
the generic WebSocketMessage envelope, src/src/main.rs:293 and 304) and, for
an envelope, the parse of its payload as a JSON value (src/src/main.rs:308).
serde_json is the external codec, so frames carry parse outcomes rather than
raw bytes; a text that parses as a handshake is classified handshake, one
that does not but parses as an envelope is classified envelope, and any other
text is unparsed and ignored. -/
inductive TextFrame where
  | handshake (h : AgentHandshake)
  | envelope (message_type : String) (payloadJson : Option Json)
  | unparsed

/-- One inbound WebSocket message (src/src/main.rs:285-330). -/
inductive InMsg where
  | close
  | text (t : TextFrame)
  | ping
  | pong
  | other

/-- Processing of one text frame by the receive task
(src/src/main.rs:290-319).  Returns the new registry, whether the loop
continues (false exactly on the invalid-handshake break), and the delivery
attempt: the taken response handler together with the parsed payload when the
frame is a response envelope and a handler was installed. -/
def recv_text (alnum : Char → Bool) (reg : Registry) (cid : String) :
    TextFrame → Registry × Bool × Option (Sink × Json)
  | .handshake h =>
    if validate_tunnel_id alnum h.tunnel_id then
      match reg.lookup cid with
      | some d => (reg.update cid { d with tunnel_id := some h.tunnel_id }, true, none)
      | none => (reg, true, none)
    else
      (reg, false, none)
  | .envelope mt pj =>
    if mt = "response" then
      match pj with
      | some v =>
        match reg.lookup cid with
        | some d =>
          match d.response_handler with
          | some sink => (reg.update cid { d with response_handler := none }, true, some (sink, v))
          | none => (reg, true, none)
        | none => (reg, true, none)
      | none => (reg, true, none)
    else
      (reg, true, none)
  | .unparsed => (reg, true, none)

/-- Result of the one-shot send on the taken handler
(src/src/main.rs:312-313): the value reaches the forwarder only while its
receiving end lives; the send result is discarded either way. -/
def sinkDeliver : Option (Sink × Json) → Option Json
  | some (s, v) => if s.receiver_live then some v else none
  | none => none

/-- The receive task's message loop (src/src/main.rs:284-331) over a scripted
list of inbound messages: a close frame or an invalid handshake ends the loop
(second component false); pings are queued for the send task and pongs
ignored, neither touching the registry.  An exhausted script leaves the loop
waiting (second component true). -/
def recv_loop (alnum : Char → Bool) : Registry → String → List InMsg → Registry × Bool
  | reg, _, [] => (reg, true)
  | reg, cid, m :: rest =>
    match m with
    | .close => (reg, false)
    | .text t =>
      match recv_text alnum reg cid t with
      | (reg1, cont, _) =>
        if cont then recv_loop alnum reg1 cid rest else (reg1, false)
    | .ping => recv_loop alnum reg cid rest
    | .pong => recv_loop alnum reg cid rest
    | .other => recv_loop alnum reg cid rest

/-- Cleanup after either channel task ends (src/src/main.rs:348-350): the
channel's registry entry is removed. -/
def handle_socket_finish (reg : Registry) (cid : String) : Registry :=
  reg.removeConn cid

/-- Does an inbound message carry a handshake that passes validation? -/
def isValidHandshakeMsg (alnum : Char → Bool) : InMsg → Bool
  | .text (.handshake h) => validate_tunnel_id alnum h.tunnel_id
  | _ => false

/-! ## Agent (src/agent/src/main.rs) -/

/-- A message_type/payload envelope as the agent writes it (struct
GatewayMessage, src/agent/src/main.rs:32-36). -/
structure GatewayMessage where
  message_type : String
  payload : String

/-- The frame the agent sends when handling a request succeeds
(src/agent/src/main.rs:186-190): a response envelope whose payload is the
serialized AgentResponse. -/
def agent_response_frame (payload : String) : GatewayMessage :=
  { message_type := "response", payload := payload }

/-- The frame the agent sends when handling a request fails
(src/agent/src/main.rs:197-202): an error envelope whose payload is the error
text. -/
def agent_error_frame (e : String) : GatewayMessage :=
  { message_type := "error", payload := e }

/-- The origin's reply as the agent collects it (src/agent/src/main.rs:99-112):
status code, the headers whose values were valid UTF-8, and the body text. -/
structure OriginResponse where
  status_code : Nat
  headers : List (String × String)
  body : String

/-- The envelope document the agent builds (struct AgentResponse,
src/agent/src/main.rs:46-51). -/
structure AgentResponse where
  status : String
  message : String
  data : Option Json

/-- The method dispatch of the origin call (src/agent/src/main.rs:75-81):
exactly GET, POST, PUT and DELETE are supported. -/
def methodSupported (m : String) : Bool :=
  m == "GET" || m == "POST" || m == "PUT" || m == "DELETE"

/-- The agent's origin dispatcher (handle_forwarded_request,
src/agent/src/main.rs:64-130).  The serde codec and the origin are external:
jp models serde_json::from_str on the request body, origin the outcome of the
HTTP call (none is a transport failure), ts the chrono timestamp and ver the
crate version.  An unsupported method fails before anything else; for a
non-GET method a body that does not parse as JSON fails before the origin
call; otherwise the origin's reply is wrapped in an AgentResponse whose
status discriminator is success exactly for a 2xx status code. -/
def handle_forwarded_request (jp : String → Except String Json) (ts ver : String)
    (req : ForwardedRequest) (origin : Option OriginResponse) :
    Except String AgentResponse :=
  if methodSupported req.method then
    let proceed : Except String AgentResponse :=
      match origin with
      | none => Except.error "Failed to forward request to local server"
      | some o =>
        Except.ok
          { status := if 200 ≤ o.status_code ∧ o.status_code ≤ 299 then "success" else "error",
            message := "Local server responded with status " ++ toString o.status_code,
            data := some (Json.obj
              [("status_code", Json.num o.status_code),
               ("headers", Json.arr (o.headers.map (fun kv => Json.arr [Json.str kv.1, Json.str kv.2]))),
               ("body", Json.str o.body),
               ("timestamp", Json.str ts),
               ("agent_version", Json.str ver)]) }
    if req.method = "GET" then proceed
    else
      match jp req.body with
      | Except.error e => Except.error ("Failed to parse request body: " ++ e)
      | Except.ok _ => proceed
  else
    Except.error ("Unsupported method: " ++ req.method)

/-- The JSON value the gateway obtains when it parses the serialized
AgentResponse payload (serde round-trip of the external codec): the three
fields in declaration order, an absent data serialized as null. -/
def agentResponseJson (r : AgentResponse) : Json :=
  Json.obj
    [("status", Json.str r.status),
     ("message", Json.str r.message),
     ("data", match r.data with | some d => d | none => Json.null)]

/-! ## Agent reconnecting supervisor (src/agent/src/main.rs:11-16, 264-301) -/

/-- Maximum consecutive connection failures (src/agent/src/main.rs:11). -/
def MAX_RETRIES : Nat := 10

/-- Initial retry delay in milliseconds (src/agent/src/main.rs:12). -/
def INITIAL_RETRY_DELAY_MS : Nat := 1000

/-- Retry delay cap in milliseconds (src/agent/src/main.rs:13). -/
def MAX_RETRY_DELAY_MS : Nat := 30000

/-- Outcome of one connect_to_gateway call: Ok is a graceful close, err a
connection error. -/
inductive ConnectResult where
  | ok
  | err

/-- The supervisor loop (connect_with_retry, src/agent/src/main.rs:264-301)
over a scripted list of connection outcomes, for runs in which no shutdown
signal fires.  Returns the list of slept delays in milliseconds, the exit
code when the loop gave up (none while the script ran out with the loop still
going), and the number of connection attempts made.  A graceful close resets
the retry count and the delay; a failure increments the count, gives up with
exit code 1 at MAX_RETRIES, and otherwise doubles the delay up to the cap
before sleeping it. -/
def connect_with_retry (retry_count delay_ms : Nat) :
    List ConnectResult → List Nat × Option Nat × Nat
  | [] => ([], none, 0)
  | .ok :: rest =>
    match connect_with_retry 0 INITIAL_RETRY_DELAY_MS rest with
    | (sleeps, code, attempts) => (sleeps, code, attempts + 1)
  | .err :: rest =>
    if retry_count + 1 ≥ MAX_RETRIES then
      ([], some 1, 1)
    else
      let d := min (delay_ms * 2) MAX_RETRY_DELAY_MS
      match connect_with_retry (retry_count + 1) d rest with
      | (sleeps, code, attempts) => (d :: sleeps, code, attempts + 1)

/-! ## Helper lemmas: splitting on a character -/

theorem splitOnChar_ne_nil (sep : Char) (s : List Char) : splitOnChar sep s ≠ [] := by
  induction s with
  | nil => simp [splitOnChar]
  | cons c rest ih =>
    unfold splitOnChar
    split
    · simp
    · split <;> simp

theorem joinSep_cons_head (sep c : Char) (w : List Char) (ws : List (List Char)) :
    joinSep sep ((c :: w) :: ws) = c :: joinSep sep (w :: ws) := by
  cases ws <;> simp [joinSep]

theorem joinSep_splitOnChar (sep : Char) (s : List Char) :
    joinSep sep (splitOnChar sep s) = s := by
  induction s with
  | nil => simp [splitOnChar, joinSep]
  | cons c rest ih =>
    unfold splitOnChar
    cases h : splitOnChar sep rest with
    | nil => exact absurd h (splitOnChar_ne_nil sep rest)
    | cons w ws =>
      rw [h] at ih
      by_cases hc : c = sep
      · subst hc
        simp [joinSep, ih]
      · simp [hc, joinSep_cons_head, ih]

theorem not_mem_of_mem_splitOnChar (sep : Char) (s part : List Char)
    (h : part ∈ splitOnChar sep s) : sep ∉ part := by
  induction s generalizing part with
  | nil =>
    simp [splitOnChar] at h
    subst h
    simp
  | cons c rest ih =>
    unfold splitOnChar at h
    cases hs : splitOnChar sep rest with
    | nil => exact absurd hs (splitOnChar_ne_nil sep rest)
    | cons w ws =>
      rw [hs] at h
      have hw : sep ∉ w := ih w (by rw [hs]; exact List.mem_cons_self w ws)
      by_cases hc : c = sep
      · subst hc
        simp only [if_pos rfl] at h
        rcases List.mem_cons.mp h with h | h
        · subst h; simp
        · rcases List.mem_cons.mp h with h | h
          · subst h; exact hw
          · exact ih part (by rw [hs]; exact List.mem_cons_of_mem w h)
      · simp only [if_neg hc] at h
        rcases List.mem_cons.mp h with h | h
        · subst h
          intro hmem
          rcases List.mem_cons.mp hmem with h' | h'
          · exact hc h'.symm
          · exact hw h'
        · exact ih part (by rw [hs]; exact List.mem_cons_of_mem w h)

theorem splitOnChar_of_not_mem (sep : Char) (p : List Char) (h : sep ∉ p) :
    splitOnChar sep p = [p] := by
  induction p with
  | nil => simp [splitOnChar]
  | cons c rest ih =>
    have hc : ¬ c = sep := fun e => h (e ▸ List.mem_cons_self c rest)
    have hrest : sep ∉ rest := fun m => h (List.mem_cons_of_mem c m)
    unfold splitOnChar
    rw [ih hrest]
    simp [hc]

theorem splitOnChar_append (sep : Char) (p t : List Char) (h : sep ∉ p) :
    splitOnChar sep (p ++ sep :: t) = p :: splitOnChar sep t := by
  induction p with
  | nil =>
    show splitOnChar sep (sep :: t) = [] :: splitOnChar sep t
    cases hs : splitOnChar sep t with
    | nil => exact absurd hs (splitOnChar_ne_nil sep t)
    | cons w ws => simp [splitOnChar, hs]
  | cons c rest ih =>
    have hc : ¬ c = sep := fun e => h (e ▸ List.mem_cons_self c rest)
    have hrest : sep ∉ rest := fun m => h (List.mem_cons_of_mem c m)
    show splitOnChar sep (c :: (rest ++ sep :: t)) = (c :: rest) :: splitOnChar sep t
    simp [splitOnChar, ih hrest, hc]

/-! ## Helper lemmas: the registry -/

theorem Registry.lookup_update_self (reg : Registry) (cid : String)
    (d d' : ConnectionDetails) (h : reg.lookup cid = some d) :
    (reg.update cid d').lookup cid = some d' := by
  induction reg with
  | nil => simp [Registry.lookup] at h
  | cons kv rest ih =>
    obtain ⟨k, v⟩ := kv
    by_cases hk : k = cid
    · simp [Registry.lookup, Registry.update, hk]
    · simp only [Registry.lookup, Registry.update, if_neg hk] at h ⊢
      exact ih h

theorem Registry.lookup_eq_none_of_not_mem (reg : Registry) (cid : String)
    (h : cid ∉ reg.map Prod.fst) : reg.lookup cid = none := by
  induction reg with
  | nil => simp [Registry.lookup]
  | cons kv rest ih =>
    obtain ⟨k, v⟩ := kv
    simp only [List.map_cons, List.mem_cons] at h
    push_neg at h
    have hk : ¬ k = cid := fun e => h.1 e.symm
    simp only [Registry.lookup, if_neg hk]
    exact ih h.2

theorem Registry.lookup_removeConn_self (reg : Registry) (cid : String)
    (hnd : (reg.map Prod.fst).Nodup) : (reg.removeConn cid).lookup cid = none := by
  induction reg with
  | nil => simp [Registry.removeConn, Registry.lookup]
  | cons kv rest ih =>
    obtain ⟨k, v⟩ := kv
    simp only [List.map_cons, List.nodup_cons] at hnd
    by_cases hk : k = cid
    · subst hk
      simp only [Registry.removeConn, if_pos rfl]
      exact Registry.lookup_eq_none_of_not_mem rest k hnd.1
    · simp only [Registry.removeConn, if_neg hk, Registry.lookup, if_neg hk]
      exact ih hnd.2

theorem Registry.mem_of_lookup (reg : Registry) (cid : String) (d : ConnectionDetails)
    (h : reg.lookup cid = some d) : (cid, d) ∈ reg := by
  induction reg with
  | nil => simp [Registry.lookup] at h
  | cons kv rest ih =>
    obtain ⟨k, v⟩ := kv
    by_cases hk : k = cid
    · simp only [Registry.lookup, if_pos hk] at h
      subst hk
      injection h with h
      subst h
      exact List.mem_cons_self _ _
    · simp only [Registry.lookup, if_neg hk] at h
      exact List.mem_cons_of_mem _ (ih h)

theorem Registry.mem_update (reg : Registry) (cid : String) (d d' : ConnectionDetails)
    (h : reg.lookup cid = some d) : (cid, d') ∈ reg.update cid d' :=
  Registry.mem_of_lookup _ cid d' (Registry.lookup_update_self reg cid d d' h)

/-! ## Helper lemmas: pick_and_arm -/

theorem pick_and_arm_keys (sink : Sink) (msg : OutFrame) (reg : Registry)
    (cid : String) (reg' : Registry) (h : pick_and_arm sink msg reg = some (cid, reg')) :
    reg'.map Prod.fst = reg.map Prod.fst := by
  induction reg generalizing reg' with
  | nil => simp [pick_and_arm] at h
  | cons kv rest ih =>
    obtain ⟨k, d⟩ := kv
    by_cases hd : d.tunnel_id.isSome
    · simp only [pick_and_arm, if_pos hd, Option.some.injEq, Prod.mk.injEq] at h
      rw [← h.2]
      simp
    · simp only [pick_and_arm, if_neg hd] at h
      cases hr : pick_and_arm sink msg rest with
      | none => rw [hr] at h; simp at h
      | some p =>
        obtain ⟨c, rest'⟩ := p
        rw [hr] at h
        simp only [Option.some.injEq, Prod.mk.injEq] at h
        rw [← h.2]
        simp [ih rest' (by rw [hr, h.1])]

theorem pick_and_arm_installs (sink : Sink) (msg : OutFrame) (reg : Registry)
    (cid : String) (reg' : Registry) (hnd : (reg.map Prod.fst).Nodup)
    (h : pick_and_arm sink msg reg = some (cid, reg')) :
    ∃ d : ConnectionDetails, reg'.lookup cid =
        some { d with response_handler := some sink, send_queue := d.send_queue ++ [msg] } ∧
      d.tunnel_id.isSome := by
  induction reg generalizing reg' with
  | nil => simp [pick_and_arm] at h
  | cons kv rest ih =>
    obtain ⟨k, d⟩ := kv
    simp only [List.map_cons, List.nodup_cons] at hnd
    by_cases hd : d.tunnel_id.isSome
    · simp only [pick_and_arm, if_pos hd, Option.some.injEq, Prod.mk.injEq] at h
      refine ⟨d, ?_, hd⟩
      rw [← h.2, ← h.1]
      simp [Registry.lookup]
    · simp only [pick_and_arm, if_neg hd] at h
      cases hr : pick_and_arm sink msg rest with
      | none => rw [hr] at h; simp at h
      | some p =>
        obtain ⟨c, rest'⟩ := p
        rw [hr] at h
        simp only [Option.some.injEq, Prod.mk.injEq] at h
        obtain ⟨hc, hrest'⟩ := h
        have hr' : pick_and_arm sink msg rest = some (cid, rest') := by rw [hr, hc]
        obtain ⟨d', hl, hd'⟩ := ih rest' hnd.2 hr'
        have hkeys := pick_and_arm_keys sink msg rest cid rest' hr'
        have hcmem : cid ∈ rest.map Prod.fst := by
          rw [← hkeys]
          exact List.mem_map.mpr ⟨_, Registry.mem_of_lookup rest' cid _ hl, rfl⟩
        have hkc : ¬ k = cid := fun e => hnd.1 (e ▸ hcmem)
        refine ⟨d', ?_, hd'⟩
        rw [← hrest']
        simp only [Registry.lookup, if_neg hkc]
        exact hl

theorem pick_and_arm_isSome_of_eligible (sink : Sink) (msg : OutFrame) (reg : Registry)
    (h : ∃ e ∈ reg, (Prod.snd e).tunnel_id.isSome) :
    (pick_and_arm sink msg reg).isSome := by
  induction reg with
  | nil => simp at h
  | cons kv rest ih =>
    obtain ⟨k, d⟩ := kv
    by_cases hd : d.tunnel_id.isSome
    · simp [pick_and_arm, hd]
    · simp only [pick_and_arm, if_neg hd]
      rcases h with ⟨e, he, hsome⟩
      rcases List.mem_cons.mp he with rfl | he
      · exact absurd hsome hd
      · have := ih ⟨e, he, hsome⟩
        cases hr : pick_and_arm sink msg rest with
        | none => rw [hr] at this; simp at this
        | some p => obtain ⟨c, rest'⟩ := p; simp

theorem pick_and_arm_eligible (sink : Sink) (msg : OutFrame) (reg : Registry)
    (cid : String) (reg' : Registry) (h : pick_and_arm sink msg reg = some (cid, reg')) :
    ∃ d : ConnectionDetails, (cid, d) ∈ reg ∧ d.tunnel_id.isSome := by
  induction reg generalizing reg' with
  | nil => simp [pick_and_arm] at h
  | cons kv rest ih =>
    obtain ⟨k, d⟩ := kv
    by_cases hd : d.tunnel_id.isSome
    · simp only [pick_and_arm, if_pos hd, Option.some.injEq, Prod.mk.injEq] at h
      exact ⟨d, by rw [← h.1]; exact List.mem_cons_self _ _, hd⟩
    · simp only [pick_and_arm, if_neg hd] at h
      cases hr : pick_and_arm sink msg rest with
      | none => rw [hr] at h; simp at h
      | some p =>
        obtain ⟨c, rest'⟩ := p
        rw [hr] at h
        simp only [Option.some.injEq, Prod.mk.injEq] at h
        obtain ⟨d', hm, hd'⟩ := ih rest' (by rw [hr, h.1])
        exact ⟨d', List.mem_cons_of_mem _ hm, hd'⟩

/-! ## Helper lemmas: the receive loop -/

theorem recv_loop_cons_text_cont (alnum : Char → Bool) (reg : Registry) (cid : String)
    (t : TextFrame) (rest : List InMsg) (reg1 : Registry) (att : Option (Sink × Json))
    (h : recv_text alnum reg cid t = (reg1, true, att)) :
    recv_loop alnum reg cid (InMsg.text t :: rest) = recv_loop alnum reg1 cid rest := by
  simp [recv_loop, h]

theorem recv_loop_cons_text_stop (alnum : Char → Bool) (reg : Registry) (cid : String)
    (t : TextFrame) (rest : List InMsg) (reg1 : Registry) (att : Option (Sink × Json))
    (h : recv_text alnum reg cid t = (reg1, false, att)) :
    recv_loop alnum reg cid (InMsg.text t :: rest) = (reg1, false) := by
  simp [recv_loop, h]

theorem exists_valid_cons_iff (alnum : Char → Bool) (m : InMsg) (rest : List InMsg) :
    (∃ x ∈ m :: rest, isValidHandshakeMsg alnum x = true) ↔
      (isValidHandshakeMsg alnum m = true ∨ ∃ x ∈ rest, isValidHandshakeMsg alnum x = true) := by
  constructor
  · rintro ⟨x, hx, hvx⟩
    rcases List.mem_cons.mp hx with rfl | hx
    · exact Or.inl hvx
    · exact Or.inr ⟨x, hx, hvx⟩
  · rintro (hm | ⟨x, hx, hvx⟩)
    · exact ⟨m, List.mem_cons_self _ _, hm⟩
    · exact ⟨x, List.mem_cons_of_mem _ hx, hvx⟩

theorem recv_loop_tunnel_iff (alnum : Char → Bool) (msgs : List InMsg) :
    ∀ (reg : Registry) (cid : String) (d0 : ConnectionDetails),
      reg.lookup cid = some d0 →
      (recv_loop alnum reg cid msgs).2 = true →
      ((∃ d, (recv_loop alnum reg cid msgs).1.lookup cid = some d ∧ d.tunnel_id.isSome = true) ↔
        (d0.tunnel_id.isSome = true ∨ ∃ m ∈ msgs, isValidHandshakeMsg alnum m = true)) := by
  induction msgs with
  | nil =>
    intro reg cid d0 h0 _
    simp only [recv_loop]
    constructor
    · rintro ⟨d, hd, hsome⟩
      rw [h0] at hd
      injection hd with hd
      subst hd
      exact Or.inl hsome
    · rintro (hs | ⟨m, hm, _⟩)
      · exact ⟨d0, h0, hs⟩
      · simp at hm
  | cons m rest ih =>
    intro reg cid d0 h0 halive
    cases m with
    | close => simp [recv_loop] at halive
    | ping =>
      have he : recv_loop alnum reg cid (InMsg.ping :: rest) = recv_loop alnum reg cid rest := rfl
      rw [he] at halive ⊢
      rw [ih reg cid d0 h0 halive, exists_valid_cons_iff]
      simp [isValidHandshakeMsg]
    | pong =>
      have he : recv_loop alnum reg cid (InMsg.pong :: rest) = recv_loop alnum reg cid rest := rfl
      rw [he] at halive ⊢
      rw [ih reg cid d0 h0 halive, exists_valid_cons_iff]
      simp [isValidHandshakeMsg]
    | other =>
      have he : recv_loop alnum reg cid (InMsg.other :: rest) = recv_loop alnum reg cid rest := rfl
      rw [he] at halive ⊢
      rw [ih reg cid d0 h0 halive, exists_valid_cons_iff]
      simp [isValidHandshakeMsg]
    | text t =>
      cases t with
      | handshake hs =>
        by_cases hv : validate_tunnel_id alnum hs.tunnel_id
        · have ht : recv_text alnum reg cid (TextFrame.handshake hs) =
              (reg.update cid { d0 with tunnel_id := some hs.tunnel_id }, true, none) := by
            simp [recv_text, hv, h0]
          rw [recv_loop_cons_text_cont alnum reg cid _ rest _ _ ht] at halive ⊢
          have h0' := Registry.lookup_update_self reg cid d0
            { d0 with tunnel_id := some hs.tunnel_id } h0
          rw [ih _ cid _ h0' halive, exists_valid_cons_iff]
          simp [isValidHandshakeMsg, hv]
        · have ht : recv_text alnum reg cid (TextFrame.handshake hs) = (reg, false, none) := by
            simp [recv_text, hv]
          rw [recv_loop_cons_text_stop alnum reg cid _ rest _ _ ht] at halive
          simp at halive
      | envelope mt pj =>
        have hnv : isValidHandshakeMsg alnum (InMsg.text (TextFrame.envelope mt pj)) = false := rfl
        by_cases hmt : mt = "response"
        · cases pj with
          | none =>
            have ht : recv_text alnum reg cid (TextFrame.envelope mt none) = (reg, true, none) := by
              simp [recv_text, hmt]
            rw [recv_loop_cons_text_cont alnum reg cid _ rest _ _ ht] at halive ⊢
            rw [ih reg cid d0 h0 halive, exists_valid_cons_iff, hnv]
            simp
          | some v =>
            cases hrh : d0.response_handler with
            | some sink =>
              have ht : recv_text alnum reg cid (TextFrame.envelope mt (some v)) =
                  (reg.update cid { d0 with response_handler := none }, true, some (sink, v)) := by
                simp [recv_text, hmt, h0, hrh]
              rw [recv_loop_cons_text_cont alnum reg cid _ rest _ _ ht] at halive ⊢
              have h0' := Registry.lookup_update_self reg cid d0
                { d0 with response_handler := none } h0
              rw [ih _ cid _ h0' halive, exists_valid_cons_iff, hnv]
              simp
            | none =>
              have ht : recv_text alnum reg cid (TextFrame.envelope mt (some v)) =
                  (reg, true, none) := by
                simp [recv_text, hmt, h0, hrh]
              rw [recv_loop_cons_text_cont alnum reg cid _ rest _ _ ht] at halive ⊢
              rw [ih reg cid d0 h0 halive, exists_valid_cons_iff, hnv]
              simp
        · have ht : recv_text alnum reg cid (TextFrame.envelope mt pj) = (reg, true, none) := by
            simp [recv_text, hmt]
          rw [recv_loop_cons_text_cont alnum reg cid _ rest _ _ ht] at halive ⊢
          rw [ih reg cid d0 h0 halive, exists_valid_cons_iff, hnv]
          simp
      | unparsed =>
        have ht : recv_text alnum reg cid TextFrame.unparsed = (reg, true, none) := rfl
        rw [recv_loop_cons_text_cont alnum reg cid _ rest _ _ ht] at halive ⊢
        rw [ih reg cid d0 h0 halive, exists_valid_cons_iff]
        simp [isValidHandshakeMsg]

/-! ## Claims -/

/-- C1: the claim demands that the forwarders' selection step skip an agent
whose pending_response_sink is already installed.  The code's selection
predicate inspects only tunnel_id and the install is unconditional: on a
registry whose sole handshaken agent already carries sink 0, the selection
step still picks that agent and overwrites sink 0 with sink 1. -/
theorem pick_and_arm_overwrites_armed_sink :
    pick_and_arm { id := 1, receiver_live := true } (postForwardFrame "x")
      [("c1", { connected_at := 0, tunnel_id := some ['t'], send_queue := [],
                response_handler := some { id := 0, receiver_live := true } })] =
      some ("c1",
        [("c1", { connected_at := 0, tunnel_id := some ['t'],
                  send_queue := [postForwardFrame "x"],
                  response_handler := some { id := 1, receiver_live := true } })]) ∧
    some (Sink.mk 0 true) ≠ some (Sink.mk 1 true) := by
  exact ⟨rfl, by decide⟩

/-- C2 counterexample: the claim's characterization of validate_tunnel_id
fails in both directions on ASCII inputs.  A tunnel id with an EMPTY purpose
is accepted (chars().all on an empty field is true), although the claim
demands a non-empty purpose; a purpose containing an underscore is rejected
(the split then has four fields), although the claim admits underscores in
the purpose. -/
theorem validate_tunnel_id_spec_counterexample :
    validate_tunnel_id asciiAlnum
      "agent_00000000-0000-0000-0000-000000000000_".data = true ∧
    validate_tunnel_id asciiAlnum
      "agent_00000000-0000-0000-0000-000000000000_a_b".data = false := by
  exact ⟨by decide, by decide⟩

/-- C2 amended: validate_tunnel_id accepts exactly the strings
agent_<uuid>_<purpose> in which the uuid field parses as a canonical UUID and
the purpose is a possibly-empty run of characters that are alphanumeric
(an underscore cannot occur in either field: a further underscore changes the
field count and the string is rejected). -/
theorem validate_tunnel_id_characterization (alnum : Char → Bool) (s : List Char) :
    validate_tunnel_id alnum s = true ↔
      ∃ u p, s = "agent".data ++ '_' :: (u ++ '_' :: p) ∧
        '_' ∉ u ∧ parse_uuid_ok u = true ∧ '_' ∉ p ∧ p.all alnum = true := by
  constructor
  · intro h
    unfold validate_tunnel_id at h
    cases hs : splitOnChar '_' s with
    | nil => exact absurd hs (splitOnChar_ne_nil _ _)
    | cons p0 tl =>
      cases tl with
      | nil => rw [hs] at h; simp at h
      | cons p1 tl2 =>
        cases tl2 with
        | nil => rw [hs] at h; simp at h
        | cons p2 tl3 =>
          cases tl3 with
          | cons p3 tl4 => rw [hs] at h; simp at h
          | nil =>
            rw [hs] at h
            simp only [Bool.and_eq_true, beq_iff_eq] at h
            obtain ⟨⟨h0, h1⟩, h2⟩ := h
            have hjoin := joinSep_splitOnChar '_' s
            rw [hs] at hjoin
            have hnp1 : '_' ∉ p1 :=
              not_mem_of_mem_splitOnChar '_' s p1
                (by rw [hs]; exact List.mem_cons_of_mem _ (List.mem_cons_self _ _))
            have hnp2 : '_' ∉ p2 :=
              not_mem_of_mem_splitOnChar '_' s p2
                (by rw [hs]
                    exact List.mem_cons_of_mem _ (List.mem_cons_of_mem _ (List.mem_cons_self _ _)))
            refine ⟨p1, p2, ?_, hnp1, h1, hnp2, ?_⟩
            · rw [← hjoin, h0]
              simp [joinSep]
            · rw [List.all_eq_true] at h2 ⊢
              intro c hc
              rcases (show alnum c = true ∨ c = '_' by simpa using h2 c hc) with hca | hcu
              · exact hca
              · exact absurd hcu (fun e => hnp2 (e ▸ hc))
  · rintro ⟨u, p, rfl, hu, hpu, hp, hall⟩
    have h0 : ('_' : Char) ∉ "agent".data := by decide
    have hsplit : splitOnChar '_' ("agent".data ++ '_' :: (u ++ '_' :: p)) =
        "agent".data :: splitOnChar '_' (u ++ '_' :: p) :=
      splitOnChar_append '_' "agent".data (u ++ '_' :: p) h0
    have hsplit2 : splitOnChar '_' (u ++ '_' :: p) = u :: splitOnChar '_' p :=
      splitOnChar_append '_' u p hu
    have hsplit3 : splitOnChar '_' p = [p] := splitOnChar_of_not_mem '_' p hp
    unfold validate_tunnel_id
    rw [hsplit, hsplit2, hsplit3]
    simp only [Bool.and_eq_true, beq_iff_eq]
    refine ⟨⟨by simp, hpu⟩, ?_⟩
    rw [List.all_eq_true] at hall ⊢
    intro c hc
    simp [hall c hc]

/-- C3 counterexample: given 10 consecutive connection failures the slept
delays are not the claimed 1000, 2000, 4000, 8000, 16000, 30000, 30000,
30000, 30000 ms sequence: the supervisor doubles the delay variable before
the first sleep, so no 1000 ms sleep ever occurs. -/
theorem backoff_first_delay_counterexample :
    (connect_with_retry 0 INITIAL_RETRY_DELAY_MS (List.replicate 10 ConnectResult.err)).1 ≠
      [1000, 2000, 4000, 8000, 16000, 30000, 30000, 30000, 30000] := by
  decide

/-- C3 amended: given 10 consecutive connection failures the agent supervisor
sleeps the delay sequence 2000, 4000, 8000, 16000, 30000, 30000, 30000,
30000, 30000 ms between attempts (the delay starts from 1000 ms but is
doubled, capped at 30000 ms, before every sleep, so 1000 ms itself is never
slept), makes exactly 10 connection attempts in total, and then gives up with
exit code 1. -/
theorem backoff_ten_failures :
    connect_with_retry 0 INITIAL_RETRY_DELAY_MS (List.replicate 10 ConnectResult.err) =
      ([2000, 4000, 8000, 16000, 30000, 30000, 30000, 30000, 30000], some 1, 10) := by
  decide

/-- C4: the gateway receive loop delivers only envelopes whose message_type is
response into a pending sink: an envelope of any other type, and in particular
the error envelope the agent emits on failure, leaves the registry unchanged
and delivers nothing, and every delivery attempt stems from a response
envelope carrying the delivered value; agent-side failures therefore never
reach the waiting forwarder, which can only time out. -/
theorem recv_routes_only_response_envelopes (alnum : Char → Bool) (reg : Registry)
    (cid : String) :
    (∀ mt pj, mt ≠ "response" →
      recv_text alnum reg cid (TextFrame.envelope mt pj) = (reg, true, none)) ∧
    (∀ e pj,
      recv_text alnum reg cid
        (TextFrame.envelope (agent_error_frame e).message_type pj) = (reg, true, none)) ∧
    (∀ t reg' cont sink v,
      recv_text alnum reg cid t = (reg', cont, some (sink, v)) →
      t = TextFrame.envelope "response" (some v)) := by
  have h1 : ∀ mt pj, mt ≠ "response" →
      recv_text alnum reg cid (TextFrame.envelope mt pj) = (reg, true, none) := by
    intro mt pj h
    simp [recv_text, h]
  refine ⟨h1, fun _ pj => h1 "error" pj (by decide), ?_⟩
  intro t reg' cont sink v h
  cases t with
  | handshake hs =>
    by_cases hv : validate_tunnel_id alnum hs.tunnel_id
    · simp only [recv_text, if_pos hv] at h
      cases hl : reg.lookup cid with
      | some d => rw [hl] at h; simp at h
      | none => rw [hl] at h; simp at h
    · simp only [recv_text, if_neg hv] at h
      simp at h
  | unparsed => simp [recv_text] at h
  | envelope mt pj =>
    by_cases hmt : mt = "response"
    · subst hmt
      cases pj with
      | none => simp [recv_text] at h
      | some v' =>
        cases hl : reg.lookup cid with
        | none => simp [recv_text, hl] at h
        | some d =>
          cases hrh : d.response_handler with
          | none => simp [recv_text, hl, hrh] at h
          | some sink' =>
            simp only [recv_text, if_pos rfl, hl, hrh] at h
            obtain ⟨-, -, h3⟩ := Prod.mk.injEq .. ▸ h
            injection h with h1' h2'
            injection h2' with h2' h3'
            injection h3' with h3'
            obtain ⟨-, hv'⟩ := Prod.mk.injEq .. ▸ h3'
            rw [hv']
    · rw [h1 mt pj hmt] at h
      simp at h

/-- C4 witness: on a concrete registry a hello envelope and the agent's error
envelope are both dropped with the registry untouched, and a concrete
delivery attempt indeed stems from a response envelope. -/
theorem recv_routes_only_response_envelopes_witness :
    recv_text (fun _ => true) [] "c" (TextFrame.envelope "hello" none) = ([], true, none) ∧
    recv_text (fun _ => true) [] "c" (TextFrame.envelope "error" none) = ([], true, none) ∧
    TextFrame.envelope "response" (some Json.null) =
      TextFrame.envelope "response" (some Json.null) := by
  refine ⟨?_, ?_, ?_⟩
  · exact (recv_routes_only_response_envelopes (fun _ => true) [] "c").1 "hello" none (by decide)
  · exact (recv_routes_only_response_envelopes (fun _ => true) [] "c").2.1 "boom" none
  · exact (recv_routes_only_response_envelopes (fun _ => true)
      [("c", { connected_at := 0, tunnel_id := some ['t'], send_queue := [],
               response_handler := some { id := 0, receiver_live := true } })] "c").2.2
      (TextFrame.envelope "response" (some Json.null))
      [("c", { connected_at := 0, tunnel_id := some ['t'], send_queue := [],
               response_handler := none })]
      true { id := 0, receiver_live := true } Json.null rfl

/-- C5: for every ForwardedRequest with a supported method that reaches the
origin, the agent's outgoing envelope carries the origin's status code in
data.status_code, the origin's body verbatim in data.body, and the status
discriminator success exactly when the origin status code is 2xx, error
otherwise. -/
theorem agent_envelope_roundtrip (jp : String → Except String Json) (ts ver : String)
    (req : ForwardedRequest) (o : OriginResponse)
    (hm : methodSupported req.method = true)
    (hb : req.method = "GET" ∨ ∃ j, jp req.body = Except.ok j) :
    ∃ r, handle_forwarded_request jp ts ver req (some o) = Except.ok r ∧
      ∃ dta, r.data = some dta ∧
        dta.get "status_code" = some (Json.num o.status_code) ∧
        dta.get "body" = some (Json.str o.body) ∧
        r.status = (if 200 ≤ o.status_code ∧ o.status_code ≤ 299 then "success" else "error") := by
  by_cases hG : req.method = "GET"
  · simp only [handle_forwarded_request, hm, if_pos rfl, if_pos hG]
    exact ⟨_, rfl, _, rfl, rfl, rfl, rfl⟩
  · rcases hb with hb | ⟨j, hj⟩
    · exact absurd hb hG
    · simp only [handle_forwarded_request, hm, if_pos rfl, if_neg hG, hj]
      exact ⟨_, rfl, _, rfl, rfl, rfl, rfl⟩

/-- C5 witness: a GET against an origin replying 503 with body oops yields an
envelope with data.status_code 503, data.body oops and discriminator
error. -/
theorem agent_envelope_roundtrip_witness :
    ∃ r, handle_forwarded_request (fun _ => Except.error "no") "t" "v"
        { method := "GET", path := "/x", body := "", headers := [] }
        (some { status_code := 503, headers := [], body := "oops" }) = Except.ok r ∧
      ∃ dta, r.data = some dta ∧
        dta.get "status_code" = some (Json.num 503) ∧
        dta.get "body" = some (Json.str "oops") ∧
        r.status = (if 200 ≤ 503 ∧ 503 ≤ 299 then "success" else "error") := by
  exact agent_envelope_roundtrip (fun _ => Except.error "no") "t" "v"
    { method := "GET", path := "/x", body := "", headers := [] }
    { status_code := 503, headers := [], body := "oops" } (by decide) (Or.inl rfl)

/-- C8: the origin dispatcher fails without contacting the origin when its
precondition is violated: an unsupported method yields the Unsupported method
error and a non-GET request whose body does not parse as JSON yields the
Failed to parse request body error, in both cases with the same result
whatever the origin would have answered. -/
theorem agent_precondition_errors (jp : String → Except String Json) (ts ver : String)
    (req : ForwardedRequest) (origin : Option OriginResponse) :
    (methodSupported req.method = false →
      handle_forwarded_request jp ts ver req origin =
        Except.error ("Unsupported method: " ++ req.method)) ∧
    (∀ e, methodSupported req.method = true → req.method ≠ "GET" →
      jp req.body = Except.error e →
      handle_forwarded_request jp ts ver req origin =
        Except.error ("Failed to parse request body: " ++ e)) := by
  constructor
  · intro h
    simp [handle_forwarded_request, h]
  · intro e hm hG hj
    simp [handle_forwarded_request, hm, hG, hj]

/-- C8 witness: a PATCH request fails with Unsupported method, and a POST
whose body fails to parse fails with Failed to parse request body, each for
an arbitrary scripted origin. -/
theorem agent_precondition_errors_witness :
    handle_forwarded_request (fun _ => Except.error "bad json") "t" "v"
        { method := "PATCH", path := "/", body := "", headers := [] }
        (some { status_code := 200, headers := [], body := "" }) =
      Except.error ("Unsupported method: " ++ "PATCH") ∧
    handle_forwarded_request (fun _ => Except.error "bad json") "t" "v"
        { method := "POST", path := "/", body := "nope", headers := [] }
        (some { status_code := 200, headers := [], body := "" }) =
      Except.error ("Failed to parse request body: " ++ "bad json") := by
  constructor
  · exact (agent_precondition_errors (fun _ => Except.error "bad json") "t" "v"
      { method := "PATCH", path := "/", body := "", headers := [] }
      (some { status_code := 200, headers := [], body := "" })).1 (by decide)
  · exact (agent_precondition_errors (fun _ => Except.error "bad json") "t" "v"
      { method := "POST", path := "/", body := "nope", headers := [] }
      (some { status_code := 200, headers := [], body := "" })).2 "bad json"
      (by decide) (by decide) rfl

/-- C6: the forwarder waits 5 seconds for POST /forward and 30 seconds for
the GET catch-all; on timeout the catch-all replies 504 Gateway Timeout and
the POST form a JSON error envelope, the registry keeps the installed sink
(nothing uninstalls it), and a late agent reply is discarded (the taken
handler's send fails against the dropped receiver) while leaving the entry
eligible, so a subsequent forward still finds and arms an agent. -/
theorem forward_timeout_semantics :
    FORWARD_TIMEOUT_SECS = 5 ∧ DIRECT_TIMEOUT_SECS = 30 ∧
    (∀ (reg : Registry) (sink : Sink) (path cid : String) (reg' : Registry),
      (reg.map Prod.fst).Nodup →
      pick_and_arm sink (directForwardFrame path) reg = some (cid, reg') →
      handle_direct_request reg sink path WaitOutcome.timedOut =
        (reg', { status := 504, headers := [("Connection", "close")],
                 body := "Request timed out after 30 seconds" }) ∧
      ∃ d, reg'.lookup cid = some d ∧ d.response_handler = some sink) ∧
    (∀ (reg : Registry) (sink : Sink) (body cid : String) (reg' : Registry),
      pick_and_arm sink (postForwardFrame body) reg = some (cid, reg') →
      handle_forward_request reg sink body WaitOutcome.timedOut =
        (reg', { status := "error", message := "Timeout waiting for agent response",
                 data := none })) ∧
    (∀ (alnum : Char → Bool) (reg : Registry) (cid : String) (d : ConnectionDetails)
        (sink : Sink) (v : Json),
      reg.lookup cid = some d → d.response_handler = some sink →
      sink.receiver_live = false → d.tunnel_id.isSome = true →
      sinkDeliver (recv_text alnum reg cid (TextFrame.envelope "response" (some v))).2.2 = none ∧
      (recv_text alnum reg cid (TextFrame.envelope "response" (some v))).2.1 = true ∧
      ∀ (sink2 : Sink) (msg2 : OutFrame),
        (pick_and_arm sink2 msg2
          (recv_text alnum reg cid (TextFrame.envelope "response" (some v))).1).isSome = true) := by
  refine ⟨rfl, rfl, ?_, ?_, ?_⟩
  · intro reg sink path cid reg' hnd hpick
    constructor
    · simp [handle_direct_request, hpick, render_direct]
    · obtain ⟨d, hl, -⟩ := pick_and_arm_installs sink (directForwardFrame path) reg cid reg' hnd hpick
      exact ⟨_, hl, rfl⟩
  · intro reg sink body cid reg' hpick
    simp [handle_forward_request, hpick, render_forward]
  · intro alnum reg cid d sink v h0 hrh hdead hts
    have ht : recv_text alnum reg cid (TextFrame.envelope "response" (some v)) =
        (reg.update cid { d with response_handler := none }, true, some (sink, v)) := by
      simp [recv_text, h0, hrh]
    refine ⟨?_, ?_, ?_⟩
    · simp [ht, sinkDeliver, hdead]
    · simp [ht]
    · intro sink2 msg2
      rw [ht]
      exact pick_and_arm_isSome_of_eligible sink2 msg2 _
        ⟨(cid, { d with response_handler := none }),
         Registry.mem_update reg cid d _ h0, hts⟩

/-- C6 witness: on a one-agent registry the armed GET forward times out with
504 and the sink stays installed, the POST forward times out with the JSON
error envelope, a late reply against the dropped receiver delivers nothing,
and the subsequent forward still arms an agent. -/
theorem forward_timeout_semantics_witness :
    handle_direct_request
        [("c", { connected_at := 0, tunnel_id := some ['t'], send_queue := [],
                 response_handler := none })]
        { id := 7, receiver_live := false } "/x" WaitOutcome.timedOut =
      ([("c", { connected_at := 0, tunnel_id := some ['t'],
                send_queue := [directForwardFrame "/x"],
                response_handler := some { id := 7, receiver_live := false } })],
       { status := 504, headers := [("Connection", "close")],
         body := "Request timed out after 30 seconds" }) ∧
    (∃ d, Registry.lookup
        [("c", { connected_at := 0, tunnel_id := some ['t'],
                 send_queue := [directForwardFrame "/x"],
                 response_handler := some { id := 7, receiver_live := false } })] "c" =
        some d ∧ d.response_handler = some { id := 7, receiver_live := false }) ∧
    handle_forward_request
        [("c", { connected_at := 0, tunnel_id := some ['t'], send_queue := [],
                 response_handler := none })]
        { id := 7, receiver_live := false } "b" WaitOutcome.timedOut =
      ([("c", { connected_at := 0, tunnel_id := some ['t'],
                send_queue := [postForwardFrame "b"],
                response_handler := some { id := 7, receiver_live := false } })],
       { status := "error", message := "Timeout waiting for agent response", data := none }) ∧
    sinkDeliver (recv_text asciiAlnum
        [("c", { connected_at := 0, tunnel_id := some ['t'],
                 send_queue := [directForwardFrame "/x"],
                 response_handler := some { id := 7, receiver_live := false } })] "c"
        (TextFrame.envelope "response" (some Json.null))).2.2 = none ∧
    (pick_and_arm { id := 8, receiver_live := true } (postForwardFrame "b2")
        (recv_text asciiAlnum
          [("c", { connected_at := 0, tunnel_id := some ['t'],
                   send_queue := [directForwardFrame "/x"],
                   response_handler := some { id := 7, receiver_live := false } })] "c"
          (TextFrame.envelope "response" (some Json.null))).1).isSome = true := by
  obtain ⟨-, -, h3, h4, h5⟩ := forward_timeout_semantics
  have ha := h3 [("c", { connected_at := 0, tunnel_id := some ['t'], send_queue := [],
                         response_handler := none })]
    { id := 7, receiver_live := false } "/x" "c"
    [("c", { connected_at := 0, tunnel_id := some ['t'],
             send_queue := [directForwardFrame "/x"],
             response_handler := some { id := 7, receiver_live := false } })]
    (by decide) rfl
  have hb := h4 [("c", { connected_at := 0, tunnel_id := some ['t'], send_queue := [],
                         response_handler := none })]
    { id := 7, receiver_live := false } "b" "c"
    [("c", { connected_at := 0, tunnel_id := some ['t'],
             send_queue := [postForwardFrame "b"],
             response_handler := some { id := 7, receiver_live := false } })] rfl
  have hc := h5 asciiAlnum
    [("c", { connected_at := 0, tunnel_id := some ['t'],
             send_queue := [directForwardFrame "/x"],
             response_handler := some { id := 7, receiver_live := false } })] "c"
    { connected_at := 0, tunnel_id := some ['t'],
      send_queue := [directForwardFrame "/x"],
      response_handler := some { id := 7, receiver_live := false } }
    { id := 7, receiver_live := false } Json.null rfl rfl rfl rfl
  exact ⟨ha.1, ha.2, hb, hc.1,
    hc.2.2 { id := 8, receiver_live := true } (postForwardFrame "b2")⟩

/-- C7: on a freshly registered channel the registry entry's tunnel_id is
present, while the receive loop lives, exactly when a handshake that passed
validation was received on that channel; a handshake whose tunnel_id fails
validation terminates the loop at once and the subsequent cleanup removes the
entry; and every entry the forwarders select has a present tunnel_id, so only
handshaken channels are forwarding-eligible. -/
theorem handshake_gates_forwarding (alnum : Char → Bool) :
    (∀ (reg : Registry) (cid : String) (d0 : ConnectionDetails) (msgs : List InMsg),
      reg.lookup cid = some d0 → d0.tunnel_id = none →
      (recv_loop alnum reg cid msgs).2 = true →
      ((∃ d, (recv_loop alnum reg cid msgs).1.lookup cid = some d ∧ d.tunnel_id.isSome = true) ↔
        ∃ m ∈ msgs, isValidHandshakeMsg alnum m = true)) ∧
    (∀ (reg : Registry) (cid : String) (h : AgentHandshake) (rest : List InMsg),
      validate_tunnel_id alnum h.tunnel_id = false →
      recv_loop alnum reg cid (InMsg.text (TextFrame.handshake h) :: rest) = (reg, false) ∧
      ((reg.map Prod.fst).Nodup → (handle_socket_finish reg cid).lookup cid = none)) ∧
    (∀ (reg : Registry) (sink : Sink) (msg : OutFrame) (cid' : String) (reg' : Registry),
      pick_and_arm sink msg reg = some (cid', reg') →
      ∃ d, (cid', d) ∈ reg ∧ d.tunnel_id.isSome = true) := by
  refine ⟨?_, ?_, ?_⟩
  · intro reg cid d0 msgs h0 hfresh halive
    rw [recv_loop_tunnel_iff alnum msgs reg cid d0 h0 halive]
    simp [hfresh]
  · intro reg cid h rest hv
    have ht : recv_text alnum reg cid (TextFrame.handshake h) = (reg, false, none) := by
      simp [recv_text, hv]
    exact ⟨recv_loop_cons_text_stop alnum reg cid _ rest _ _ ht,
      fun hnd => Registry.lookup_removeConn_self reg cid hnd⟩
  · intro reg sink msg cid' reg' hpick
    obtain ⟨d, hm, hd⟩ := pick_and_arm_eligible sink msg reg cid' reg' hpick
    exact ⟨d, hm, hd⟩

/-- C7 witness: on a fresh one-entry registry a valid handshake makes the
tunnel_id present, an invalid handshake terminates the loop with the entry
then removed by cleanup, and a concrete selected agent has a present
tunnel_id. -/
theorem handshake_gates_forwarding_witness :
    (∃ d, (recv_loop asciiAlnum
        [("c", { connected_at := 0, tunnel_id := none, send_queue := [],
                 response_handler := none })] "c"
        [InMsg.text (TextFrame.handshake
          { tunnel_id := "agent_00000000-0000-0000-0000-000000000000_chat".data,
            agent_version := "1" })]).1.lookup "c" = some d ∧
      d.tunnel_id.isSome = true) ∧
    recv_loop asciiAlnum
        [("c", { connected_at := 0, tunnel_id := none, send_queue := [],
                 response_handler := none })] "c"
        [InMsg.text (TextFrame.handshake
          { tunnel_id := "bogus".data, agent_version := "1" })] =
      ([("c", { connected_at := 0, tunnel_id := none, send_queue := [],
                response_handler := none })], false) ∧
    (handle_socket_finish
        [("c", { connected_at := 0, tunnel_id := none, send_queue := [],
                 response_handler := none })] "c").lookup "c" = none ∧
    (∃ d, ("e", d) ∈ ([("e", { connected_at := 0, tunnel_id := some ['t'],
                               send_queue := [], response_handler := none })] : Registry) ∧
      d.tunnel_id.isSome = true) := by
  obtain ⟨p1, p2, p3⟩ := handshake_gates_forwarding asciiAlnum
  refine ⟨?_, ?_, ?_, ?_⟩
  · exact (p1 [("c", ⟨0, none, [], none⟩)] "c" ⟨0, none, [], none⟩
      [InMsg.text (TextFrame.handshake
        ⟨"agent_00000000-0000-0000-0000-000000000000_chat".data, "1"⟩)]
      rfl rfl (by decide)).mpr ⟨_, List.mem_cons_self _ _, by decide⟩
  · exact (p2 [("c", ⟨0, none, [], none⟩)] "c" ⟨"bogus".data, "1"⟩ [] (by decide)).1
  · exact (p2 [("c", ⟨0, none, [], none⟩)] "c" ⟨"bogus".data, "1"⟩ [] (by decide)).2 (by decide)
  · exact p3 [("e", ⟨0, some ['t'], [], none⟩)] ⟨0, true⟩ (postForwardFrame "z") "e"
      [("e", ⟨0, some ['t'], [postForwardFrame "z"], some ⟨0, true⟩⟩)] rfl

/-- C9: whenever a delivered response value has a data field whose body field
is a string, the GET catch-all replies 200 with Content-Type text/html and
that string as the body; in particular, for every envelope the agent builds
from an origin reply, whatever the origin's status code and the envelope's
status discriminator, the catch-all serves the origin's body as 200. -/
theorem direct_render_masks_origin_status :
    (∀ (v dta : Json) (s : String),
      v.get "data" = some dta → dta.get "body" = some (Json.str s) →
      render_direct (WaitOutcome.received v) =
        { status := 200, headers := [("Content-Type", "text/html"), ("Connection", "close")],
          body := s }) ∧
    (∀ (jp : String → Except String Json) (ts ver : String) (req : ForwardedRequest)
        (o : OriginResponse) (r : AgentResponse),
      handle_forwarded_request jp ts ver req (some o) = Except.ok r →
      render_direct (WaitOutcome.received (agentResponseJson r)) =
        { status := 200, headers := [("Content-Type", "text/html"), ("Connection", "close")],
          body := o.body }) := by
  have h1 : ∀ (v dta : Json) (s : String),
      v.get "data" = some dta → dta.get "body" = some (Json.str s) →
      render_direct (WaitOutcome.received v) =
        { status := 200, headers := [("Content-Type", "text/html"), ("Connection", "close")],
          body := s } := by
    intro v dta s hd hb
    simp [render_direct, hd, hb, Json.asStr]
  refine ⟨h1, ?_⟩
  intro jp ts ver req o r h
  cases hmb : methodSupported req.method with
  | false => simp [handle_forwarded_request, hmb] at h
  | true =>
    by_cases hG : req.method = "GET"
    · simp only [handle_forwarded_request, hmb, if_pos rfl, if_pos hG] at h
      injection h with h
      subst h
      exact h1 _ _ _ rfl rfl
    · cases hj : jp req.body with
      | error e => simp [handle_forwarded_request, hmb, hG, hj] at h
      | ok j =>
        simp only [handle_forwarded_request, hmb, if_pos rfl, if_neg hG, hj] at h
        injection h with h
        subst h
        exact h1 _ _ _ rfl rfl

/-- C9 witness: a concrete delivered value with data.body hi renders as 200
hi, and the envelope built from an origin 500 reply renders its body as
200. -/
theorem direct_render_masks_origin_status_witness :
    render_direct (WaitOutcome.received
        (Json.obj [("data", Json.obj [("body", Json.str "hi")])])) =
      { status := 200, headers := [("Content-Type", "text/html"), ("Connection", "close")],
        body := "hi" } ∧
    render_direct (WaitOutcome.received (agentResponseJson
        { status := "error",
          message := "Local server responded with status " ++ toString (500 : Nat),
          data := some (Json.obj
            [("status_code", Json.num 500), ("headers", Json.arr []),
             ("body", Json.str "errpage"), ("timestamp", Json.str "t"),
             ("agent_version", Json.str "v")]) })) =
      { status := 200, headers := [("Content-Type", "text/html"), ("Connection", "close")],
        body := "errpage" } := by
  obtain ⟨h1, h2⟩ := direct_render_masks_origin_status
  constructor
  · exact h1 _ _ "hi" rfl rfl
  · exact h2 (fun _ => Except.error "no") "t" "v"
      { method := "GET", path := "/e", body := "", headers := [] }
      { status_code := 500, headers := [], body := "errpage" } _ rfl

/-- C10: a delivered response value with no data field, or whose data has no
body field, or whose body is not a string, makes the GET catch-all reply 500
Internal Server Error with body Invalid response format. -/
theorem direct_render_invalid_format (v : Json)
    (h : v.get "data" = none ∨ ∃ dta, v.get "data" = some dta ∧
      (dta.get "body" = none ∨ ∃ b, dta.get "body" = some b ∧ b.asStr = none)) :
    render_direct (WaitOutcome.received v) =
      { status := 500, headers := [("Connection", "close")],
        body := "Invalid response format" } := by
  rcases h with h | ⟨dta, hd, h⟩
  · simp [render_direct, h]
  · rcases h with h | ⟨b, hb, hs⟩
    · simp [render_direct, hd, h]
    · simp [render_direct, hd, hb, hs]

/-- C10 witness: a value without data and a value whose data.body is a number
both render as 500 Invalid response format. -/
theorem direct_render_invalid_format_witness :
    render_direct (WaitOutcome.received (Json.obj [])) =
      { status := 500, headers := [("Connection", "close")],
        body := "Invalid response format" } ∧
    render_direct (WaitOutcome.received
        (Json.obj [("data", Json.obj [("body", Json.num 3)])])) =
      { status := 500, headers := [("Connection", "close")],
        body := "Invalid response format" } := by
  constructor
  · exact direct_render_invalid_format (Json.obj []) (Or.inl rfl)
  · exact direct_render_invalid_format _ (Or.inr ⟨_, rfl, Or.inr ⟨_, rfl, rfl⟩⟩)

end RustTunnel
